import Mathlib

/-!
Verification development for the IRAnalysis spectral-analysis pipeline
(`modules/analysis.py`, `modules/utils.py`).  Python functions are shallowly
embedded as Lean definitions over exact rationals (ℚ); machine-float
overflow behaviour is modelled explicitly where a claim depends on it.
-/

namespace IRAnalysis

/-! ## Region utilities: `utils._dataframe_truncate`

The source filters a dataframe to rows whose `wavenumber` is strictly
between the minimum and the maximum of the two region bounds:

    truncated_df = dataframe[
        (dataframe["wavenumber"] < wavenumber_region.max())
        & (dataframe["wavenumber"] > wavenumber_region.min())
    ]

A dataframe with `wavenumber` and `intensity` columns is a list of
(wavenumber, intensity) pairs. -/

def dataframeTruncate (dataframe : List (ℚ × ℚ)) (wavenumberRegion : ℚ × ℚ) :
    List (ℚ × ℚ) :=
  dataframe.filter fun row =>
    decide (row.1 < max wavenumberRegion.1 wavenumberRegion.2) &&
    decide (row.1 > min wavenumberRegion.1 wavenumberRegion.2)

/-! ## Fit model: `utils._gauss_lorentz_curve` and the default bounds

`scipy.stats.norm.pdf` and `scipy.stats.cauchy.pdf` with `loc`/`scale`
arguments are the standard Gaussian and Lorentzian (Cauchy) probability
density functions. -/

noncomputable def normPdf (x loc scale : ℝ) : ℝ :=
  Real.exp (-(((x - loc) / scale) ^ 2) / 2) / (scale * Real.sqrt (2 * Real.pi))

noncomputable def cauchyPdf (x loc scale : ℝ) : ℝ :=
  1 / (Real.pi * scale * (1 + ((x - loc) / scale) ^ 2))

/-- `utils._gauss_lorentz_curve`:

    beta = 1 / np.sqrt(2 * np.log(2))
    gauss = norm.pdf(x, loc=loc, scale=beta * scale)
    lorentz = cauchy.pdf(x, loc=loc, scale=scale)
    return area * (l_fraction * lorentz + (1 - l_fraction) * gauss) -/
noncomputable def gaussLorentzCurve (x area loc scale lFraction : ℝ) : ℝ :=
  let beta := 1 / Real.sqrt (2 * Real.log 2)
  let gauss := normPdf x loc (beta * scale)
  let lorentz := cauchyPdf x loc scale
  area * (lFraction * lorentz + (1 - lFraction) * gauss)

/-- A scipy `curve_fit` bound entry: `-np.inf`, `np.inf`, or a finite value. -/
inductive FBound where
  | ninf : FBound
  | inf : FBound
  | val : ℚ → FBound
deriving DecidableEq, Repr

/-- Lower-bound satisfaction for one parameter. -/
def FBound.lowerOk : FBound → ℚ → Bool
  | .ninf, _ => true
  | .inf, _ => false
  | .val q, x => q ≤ x

/-- Upper-bound satisfaction for one parameter. -/
def FBound.upperOk : FBound → ℚ → Bool
  | .ninf, _ => false
  | .inf, _ => true
  | .val q, x => x ≤ q

/-- A parameter vector lies within a `(lower, upper)` scipy bound pair. -/
def withinBounds (bounds : List FBound × List FBound) (params : List ℚ) : Bool :=
  (params.zip bounds.1).all (fun pb => pb.2.lowerOk pb.1) &&
  (params.zip bounds.2).all (fun pb => pb.2.upperOk pb.1)

/-- `IRAnalysis.fit_bands`, default bounds for a single Gauss-Lorentz curve:

    single_gl_blounds = (
        [-np.inf, -np.inf, -np.inf, 0],
        [np.inf, np.inf, np.inf, 1],
    ) -/
def singleGlBounds : List FBound × List FBound :=
  ([.ninf, .ninf, .ninf, .val 0], [.inf, .inf, .inf, .val 1])

/-- `IRAnalysis.fit_bands`, default parameter units for a single
Gauss-Lorentz curve: `[inv_cm, inv_cm, inv_cm, "dimensionless"]`. -/
def singleGlUnits : List String :=
  ["1 / cm", "1 / cm", "1 / cm", "dimensionless"]

/-- `IRAnalysis.fit_bands`, default initial guesses for a single
Gauss-Lorentz curve: `(4.0, band.location.value, 3.0, 0.5)`. -/
def singleGlGuesses (bandLocation : ℚ) : List ℚ :=
  [4, bandLocation, 3, 1/2]

/-! ## Fit construction: `IRAnalysis._fit_band`

The datamodel `Value` is a (value, unit string, error) triple and a `Fit`
records a model description, formula string, parameter list and area.
`_fit_band` receives the optimal parameters `popt` and their standard
deviations `perror = sqrt(diag(pcov))` from `utils._fit_curve`
(`scipy.optimize.curve_fit`, an external solver); the embedding therefore
takes `popt` and `perror` as inputs and reproduces how `_fit_band` packages
them into a `Fit`. -/

structure ValueS where
  value : ℚ
  unit : String
  error : ℚ
deriving DecidableEq, Repr

structure FitS where
  model : String
  formula : String
  parameters : List ValueS
  area : ValueS
deriving DecidableEq, Repr

/-- `IRAnalysis._fit_band`, after the `curve_fit` call:

    if fit_model_description == "Gauss-Lorentz":
        fit_formula = "[z * GaussianPDF + (1-z) * CauchyPDF] * area"
    else:
        fit_formula = "Unknown"
    fit_area = Value(value=popt[0], unit=inv_cm, error=perror[0])
    for param, error, no in zip(popt, perror, range(len(popt))):
        if fit_parameter_units != ["dimensionless"]:
            unit = fit_parameter_units[no]
        else:
            unit = "dimensionless"
        fit_object_parameters.append(Value(value=param, unit=unit, error=error))
    fit_object = Fit(model=..., formula=..., parameters=..., area=fit_area) -/
def fitBand (popt perror : List ℚ) (fitModelDescription : String)
    (fitParameterUnits : List String) : FitS :=
  let fitFormula := if fitModelDescription = "Gauss-Lorentz" then
      "[z * GaussianPDF + (1-z) * CauchyPDF] * area"
    else
      "Unknown"
  let fitArea : ValueS := ⟨popt.getD 0 0, "1 / cm", perror.getD 0 0⟩
  let fitObjectParameters := (popt.zip perror).enum.map fun numbered =>
      ⟨numbered.2.1,
       if fitParameterUnits ≠ ["dimensionless"] then
         fitParameterUnits.getD numbered.1 ""
       else "dimensionless",
       numbered.2.2⟩
  ⟨fitModelDescription, fitFormula, fitObjectParameters, fitArea⟩

/-! ## Branch selection in `IRAnalysis.fit_bands`

Inside the per-band loop the source selects the fitting strategy from the
(loop-invariant) optional arguments:

    if not fit_parameter_bounds or not fit_parameter_guesses or not fit_models:
        ... fit a single default Gauss-Lorentz curve ...
    elif fit_models and fit_parameter_bounds and fit_parameter_guesses:
        ... fit with the user-supplied model/bounds/guesses ...
    else:
        raise ValueError("fit_models, fit_parameter_bounds and "
                         "fit_parameter_guesses all have to be given.")

Each optional argument is `None` or a list, and Python truthiness of a list
is non-emptiness. -/

inductive FitBranch where
  | defaultGL : FitBranch
  | custom : FitBranch
  | raiseValueError : FitBranch
deriving DecidableEq, Repr

/-- Python truthiness of an optional list argument. -/
def listTruthy {α : Type} : Option (List α) → Bool
  | none => false
  | some l => !l.isEmpty

/-- The branch selected by `fit_bands` for given optional
`fit_models` / `fit_parameter_bounds` / `fit_parameter_guesses` arguments. -/
def fitBandsBranch {μ β γ : Type} (fitModels : Option (List μ))
    (fitParameterBounds : Option (List β))
    (fitParameterGuesses : Option (List γ)) : FitBranch :=
  if !listTruthy fitParameterBounds || !listTruthy fitParameterGuesses ||
      !listTruthy fitModels then
    .defaultGL
  else if listTruthy fitModels && listTruthy fitParameterBounds &&
      listTruthy fitParameterGuesses then
    .custom
  else
    .raiseValueError

/-! ## Band classification: `utils._auto_assign_band`

    difference_to_expected = np.array(
        [np.abs(exp_loc.value - peak_location.value)
         for exp_loc in expected_peaks["location"]])
    closest_to_expected = list(expected_peaks.index)[
        difference_to_expected.argmin()]

A location is a raw numeric value together with the conversion factor of its
unit into a common (SI) unit; `.value` reads the raw number only.
`np.argmin` returns the first index attaining the minimum. -/

structure PeakLoc where
  value : ℚ
  factor : ℚ
deriving DecidableEq, Repr, Inhabited

structure ExpectedPeak where
  name : String
  location : PeakLoc
deriving DecidableEq, Repr, Inhabited

/-- `np.argmin`: index of the first occurrence of the minimum (0 on `[]`). -/
def idxOfMin : List ℚ → ℕ
  | [] => 0
  | [_] => 0
  | a :: b :: rest =>
    if (b :: rest).getD (idxOfMin (b :: rest)) 0 < a then
      idxOfMin (b :: rest) + 1
    else 0

/-- `np.abs` on an exact rational. -/
def ratAbs (q : ℚ) : ℚ := if q < 0 then -q else q

/-- The raw-value distances computed in `_auto_assign_band`. -/
def differenceToExpected (peakLocation : PeakLoc)
    (expectedPeaks : List ExpectedPeak) : List ℚ :=
  expectedPeaks.map fun expLoc => ratAbs (expLoc.location.value - peakLocation.value)

/-- `utils._auto_assign_band`. -/
def autoAssignBand (peakLocation : PeakLoc)
    (expectedPeaks : List ExpectedPeak) : String :=
  (expectedPeaks.map fun e => e.name).getD
    (idxOfMin (differenceToExpected peakLocation expectedPeaks)) ""

/-- Follows the spec's words, for comparison with `autoAssignBand`:
classification "with unit conversion performed before the comparison" —
distances are taken between the locations expressed in a common unit. -/
def specAssignBandConverted (peakLocation : PeakLoc)
    (expectedPeaks : List ExpectedPeak) : String :=
  (expectedPeaks.map fun e => e.name).getD
    (idxOfMin (expectedPeaks.map fun e =>
      ratAbs (e.location.value * e.location.factor -
        peakLocation.value * peakLocation.factor))) ""

/-- The default expected-peak table of `IRAnalysis.__init__`:
Lewis 1455 cm⁻¹, Mixed 1491 cm⁻¹, Bronsted 1545 cm⁻¹ (1 cm⁻¹ = 100 m⁻¹). -/
def defaultExpectedPeaks : List ExpectedPeak :=
  [⟨"Lewis", ⟨1455, 100⟩⟩, ⟨"Mixed", ⟨1491, 100⟩⟩, ⟨"Bronsted", ⟨1545, 100⟩⟩]

/-! ## Analysis state and `IRAnalysis.baseline_correction`

An analysis object holds the working corrected spectrum (x and y arrays),
the optionally stored baseline, and the band list.  The FastChrom baseline
algorithm (`pybaselines.classification.fastchrom`) is an external numeric
routine; it is abstracted as a function parameter taking
`(y, xdata, threshold, half_window)` and returning the baseline array. -/

structure BandS where
  assignment : String
  location : ℚ
  bandStart : ℚ
  bandEnd : ℚ
deriving DecidableEq, Repr, Inhabited

structure AnalysisObj where
  wavenumber : List ℚ
  intensity : List ℚ
  baseline : Option (List ℚ)
  bands : List BandS
deriving DecidableEq, Repr, Inhabited

/-- Signature of `pybaselines.classification.fastchrom`:
`(y, xdata, threshold, half_window) ↦ baseline`. -/
def FastChrom : Type :=
  List ℚ → List ℚ → Option ℚ → Option ℕ → List ℚ

/-- The body of the per-object loop of `IRAnalysis.baseline_correction`:

    corrected_intensity = np.array(analysis_object.corrected_data.y_axis.data_array)
    corrected_wavenumber = np.array(analysis_object.corrected_data.x_axis.data_array)
    if analysis_object.baseline:
        corrected_intensity = corrected_intensity + np.array(analysis_object.baseline.data_array)
    baseline, _ = fastchrom(corrected_intensity, xdata=corrected_wavenumber,
                            threshold=threshold, half_window=half_window)
    analysis_object.corrected_data.y_axis.data_array = corrected_intensity - baseline
    analysis_object.baseline = baseline_series -/
def baselineStep (fastchrom : FastChrom) (threshold : Option ℚ)
    (halfWindow : Option ℕ) (analysisObject : AnalysisObj) : AnalysisObj :=
  let correctedIntensity :=
    match analysisObject.baseline with
    | some b => List.zipWith (· + ·) analysisObject.intensity b
    | none => analysisObject.intensity
  let baseline := fastchrom correctedIntensity analysisObject.wavenumber
    threshold halfWindow
  { analysisObject with
      intensity := List.zipWith (· - ·) correctedIntensity baseline,
      baseline := some baseline }

/-- Python truthiness of the optional integer `spectrum_no` argument:
`None` and `0` are falsy, every other integer is truthy. -/
def pyTruthyNat : Option ℕ → Bool
  | none => false
  | some n => n ≠ 0

/-- `IRAnalysis.baseline_correction` over the list of analysis objects:

    if not spectrum_no:
        analysis_objects = self._analysis_objects
    else:
        analysis_objects = [self._analysis_objects[spectrum_no]]
    for analysis_object in analysis_objects:
        ... (baselineStep) ... -/
def baselineCorrection (fastchrom : FastChrom) (spectrumNo : Option ℕ)
    (threshold : Option ℚ) (halfWindow : Option ℕ)
    (analysisObjects : List AnalysisObj) : List AnalysisObj :=
  if pyTruthyNat spectrumNo then
    analysisObjects.set (spectrumNo.getD 0)
      (baselineStep fastchrom threshold halfWindow
        (analysisObjects.getD (spectrumNo.getD 0) default))
  else
    analysisObjects.map (baselineStep fastchrom threshold halfWindow)

/-! ## Band detection: `IRAnalysis.find_bands`

`utils._find_bands` wraps `scipy.signal.find_peaks` / `peak_widths`
(external numeric routines) and returns a dataframe with columns
`peaks`, `peak_base_height`, `peak_min`, `peak_max`; it is abstracted as a
function parameter from the spectrum data and the two detection parameters
to the list of detected rows. -/

structure BandRow where
  peaks : ℚ
  peakBaseHeight : ℚ
  peakMin : ℚ
  peakMax : ℚ
deriving DecidableEq, Repr, Inhabited

/-- Signature of `utils._find_bands`:
`(spectrum dataframe, prominence, rel_height) ↦ band rows`. -/
def FindBandsAlg : Type :=
  List (ℚ × ℚ) → ℚ → ℚ → List BandRow

/-- One `Band(assignment=..., location=peak, start=start, end=end)` as built
in the loop of `find_bands`; the peak location carries the `1 / cm` unit
(factor 100 to the SI m⁻¹) when classified by `utils._auto_assign_band`. -/
def bandFromRow (expectedPeaks : List ExpectedPeak) (row : BandRow) : BandS :=
  ⟨autoAssignBand ⟨row.peaks, 100⟩ expectedPeaks, row.peaks, row.peakMin,
    row.peakMax⟩

/-- `IRAnalysis.find_bands`:

    if not isinstance(spectrum_no, int):
        analysis_objects = self._analysis_objects
    else:
        analysis_objects = [self._analysis_objects[spectrum_no]]
    for analysis_object in analysis_objects:
        bands = utils._find_bands(...)
        for band_no, band_index in enumerate(bands.index):
            ...
            if isinstance(spectrum_no, int):
                analysis_object.bands[band_no] = Band(...)
                return bands          # <- inside the loop body
            else:
                analysis_object.add_to_bands(...)

The `return bands` sits inside the per-band loop, so in the single-spectrum
branch only the first detected band (index 0) is written before the
function returns; with no detected band the function falls through and
returns `None`. -/
def findBands (findBandsAlg : FindBandsAlg)
    (expectedPeaks : List ExpectedPeak) (spectrumNo : Option ℕ)
    (prominence relHeight : ℚ) (analysisObjects : List AnalysisObj) :
    List AnalysisObj × Option (List BandRow) :=
  match spectrumNo with
  | none =>
    (analysisObjects.map fun obj =>
      { obj with bands := obj.bands ++
          ((findBandsAlg (obj.wavenumber.zip obj.intensity) prominence
              relHeight).map (bandFromRow expectedPeaks)) },
     none)
  | some k =>
    let obj := analysisObjects.getD k default
    let rows := findBandsAlg (obj.wavenumber.zip obj.intensity) prominence
      relHeight
    match rows with
    | [] => (analysisObjects, none)
    | r :: _ =>
      (analysisObjects.set k
        { obj with bands := obj.bands.set 0 (bandFromRow expectedPeaks r) },
       some rows)

/-! ## Quantification: `IRAnalysis._quantify_from_area` and `quantify`

`_quantify_from_area` computes with `astropy` quantities, whose numeric
values are IEEE-754 doubles (numpy semantics: division by zero yields an
infinity with a warning, never an exception) and whose units form a
multiplicative group described here by an SI conversion factor together with
length/mass/amount dimension exponents.  `Quantity.to` raises on
incompatible dimensions, modelled by `Option`.  Neither
`_quantify_from_area` nor `quantify` contains any `raise` statement or any
zero test, so the embedding is total. -/

inductive PyFloat where
  | fin : ℚ → PyFloat
  | inf : PyFloat
  | ninf : PyFloat
  | nan : PyFloat
deriving DecidableEq, Repr

/-- IEEE-754 multiplication on the modelled doubles. -/
def PyFloat.mul : PyFloat → PyFloat → PyFloat
  | .nan, _ => .nan
  | .fin a, .fin b => .fin (a * b)
  | .fin a, .inf => if 0 < a then .inf else if a < 0 then .ninf else .nan
  | .fin a, .ninf => if 0 < a then .ninf else if a < 0 then .inf else .nan
  | .inf, .fin b => if 0 < b then .inf else if b < 0 then .ninf else .nan
  | .ninf, .fin b => if 0 < b then .ninf else if b < 0 then .inf else .nan
  | .inf, .inf => .inf
  | .inf, .ninf => .ninf
  | .ninf, .inf => .ninf
  | .ninf, .ninf => .inf
  | _, .nan => .nan

/-- IEEE-754 division on the modelled doubles (numpy semantics: a finite
positive value divided by zero is `inf`, not an exception). -/
def PyFloat.div : PyFloat → PyFloat → PyFloat
  | .nan, _ => .nan
  | .fin a, .fin b =>
    if b = 0 then (if 0 < a then .inf else if a < 0 then .ninf else .nan)
    else .fin (a / b)
  | .fin _, .inf => .fin 0
  | .fin _, .ninf => .fin 0
  | .inf, .fin b => if b < 0 then .ninf else .inf
  | .ninf, .fin b => if b < 0 then .inf else .ninf
  | .inf, .inf => .nan
  | .inf, .ninf => .nan
  | .ninf, .inf => .nan
  | .ninf, .ninf => .nan
  | _, .nan => .nan

/-- An astropy unit: SI conversion factor and dimension exponents
(length, mass, amount of substance). -/
structure UnitD where
  factor : ℚ
  len : ℤ
  mass : ℤ
  mol : ℤ
deriving DecidableEq, Repr

def UnitD.mul (u v : UnitD) : UnitD :=
  ⟨u.factor * v.factor, u.len + v.len, u.mass + v.mass, u.mol + v.mol⟩

def UnitD.div (u v : UnitD) : UnitD :=
  ⟨u.factor / v.factor, u.len - v.len, u.mass - v.mass, u.mol - v.mol⟩

/-- An astropy `Quantity`: numeric value with a unit. -/
structure QuantityF where
  val : PyFloat
  unit : UnitD
deriving DecidableEq, Repr

def QuantityF.mul (q r : QuantityF) : QuantityF :=
  ⟨q.val.mul r.val, q.unit.mul r.unit⟩

def QuantityF.div (q r : QuantityF) : QuantityF :=
  ⟨q.val.div r.val, q.unit.div r.unit⟩

/-- `Quantity.to(target)`: rescale into the target unit when the dimensions
agree, otherwise raise (`none`). -/
def QuantityF.to (q : QuantityF) (target : UnitD) : Option QuantityF :=
  if q.unit.len = target.len ∧ q.unit.mass = target.mass ∧
      q.unit.mol = target.mol then
    some ⟨q.val.mul (.fin (q.unit.factor / target.factor)), target⟩
  else none

/-- A datamodel `Value` as consumed by quantification: numeric value, unit,
and error. -/
structure ValueD where
  value : PyFloat
  unit : UnitD
  error : PyFloat
deriving DecidableEq, Repr

/-- `utils._get_quantity_object`: wrap the value (or, on `error=True`, the
error) of a `Value` into a quantity carrying the `Value`'s unit. -/
def getQuantityObject (valueObject : ValueD) (error : Bool) : QuantityF :=
  if error then ⟨valueObject.error, valueObject.unit⟩
  else ⟨valueObject.value, valueObject.unit⟩

/-- `IRAnalysis._quantify_from_area`:

    return (sample_area * peak_area) / (sample_mass * extinction_coefficient) -/
def quantifyFromArea (sampleMass sampleArea : ValueD) (peakArea : ValueD)
    (extinctionCoefficient : QuantityF) (error : Bool) : QuantityF :=
  ((getQuantityObject sampleArea false).mul
      (getQuantityObject peakArea error)).div
    ((getQuantityObject sampleMass false).mul extinctionCoefficient)

/-- The reporting unit `10**(-6) * u.mol / u.g` (µmol/g): `1e-3 mol/kg`. -/
def umolPerG : UnitD := ⟨1/1000, 0, -1, 1⟩

/-- The per-band body of `IRAnalysis.quantify`:

    quantity = self._quantify_from_area(analysis_object, band_area, ec)
    quantity_error = self._quantify_from_area(..., error=True)
    quantity = quantity.to(10**(-6)*u.mol / u.g)
    quantity_error = quantity_error.to(10**(-6)*u.mol / u.g)
    quantity_value_object = Value(value=quantity.value, unit=...,
                                  error=quantity_error.value) -/
def quantifyBandResult (sampleMass sampleArea : ValueD) (peakArea : ValueD)
    (extinctionCoefficient : QuantityF) : Option ValueD := do
  let quantity ← (quantifyFromArea sampleMass sampleArea peakArea
    extinctionCoefficient false).to umolPerG
  let quantityError ← (quantifyFromArea sampleMass sampleArea peakArea
    extinctionCoefficient true).to umolPerG
  pure ⟨quantity.val, quantity.unit, quantityError.val⟩

/-! ## Theorems -/

example :
    dataframeTruncate [(1, 10), (2, 20), (3, 30), (4, 40)] (3, 1) = [(2, 20)] := by
  decide

/-- C8: truncation keeps exactly the sample pairs whose x-value lies strictly
between `min lo hi` and `max lo hi`, as a sublist of the input (pairing between
x and y preserved); it is symmetric in the order of the two region bounds; and
when no x-value lies strictly inside the region the result is the empty list
(length 0), not an error. -/
theorem dataframeTruncate_region_spec (df : List (ℚ × ℚ)) (lo hi : ℚ) :
    (∀ row, row ∈ dataframeTruncate df (lo, hi) ↔
        row ∈ df ∧ min lo hi < row.1 ∧ row.1 < max lo hi) ∧
    (dataframeTruncate df (lo, hi)).Sublist df ∧
    dataframeTruncate df (lo, hi) = dataframeTruncate df (hi, lo) ∧
    ((∀ row ∈ df, ¬ (min lo hi < row.1 ∧ row.1 < max lo hi)) →
      dataframeTruncate df (lo, hi) = []) := by
  refine ⟨?_, ?_, ?_, ?_⟩
  · intro row
    simp [dataframeTruncate, List.mem_filter, and_comm]
  · exact List.filter_sublist df
  · simp [dataframeTruncate, max_comm, min_comm]
  · intro h
    rw [dataframeTruncate, List.filter_eq_nil_iff]
    intro row hrow
    have := h row hrow
    simp only [Bool.and_eq_true, decide_eq_true_eq, gt_iff_lt, not_and] at this ⊢
    intro h1 h2
    exact this h2 h1

/-- Witness for C8 at a concrete spectrum and region. -/
theorem dataframeTruncate_region_spec_witness :
    dataframeTruncate [((1 : ℚ), (10 : ℚ)), (5, 50)] (10, 20) = [] := by
  exact (dataframeTruncate_region_spec [(1, 10), (5, 50)] 10 20).2.2.2 (by decide)

/-- C9: the default fit model evaluates, for every `x`, `area`, `loc`,
`scale` and `l_fraction`, to
`area * (l_fraction * Lorentzian(x; loc, scale) + (1 - l_fraction) * Gaussian(x; loc, scale * beta))`
with `beta = 1 / sqrt (2 * ln 2)`; and the default fit bounds constrain only
`l_fraction`, to the interval `[0, 1]`: a parameter vector
`[area, loc, scale, l_fraction]` satisfies them exactly when
`0 ≤ l_fraction ≤ 1`. -/
theorem gaussLorentz_default_model_spec :
    (∀ x area loc scale lFraction : ℝ,
      gaussLorentzCurve x area loc scale lFraction =
        area * (lFraction * cauchyPdf x loc scale +
          (1 - lFraction) * normPdf x loc (scale * (1 / Real.sqrt (2 * Real.log 2))))) ∧
    (∀ area loc scale lFraction : ℚ,
      withinBounds singleGlBounds [area, loc, scale, lFraction] = true ↔
        0 ≤ lFraction ∧ lFraction ≤ 1) := by
  constructor
  · intro x area loc scale lFraction
    rw [gaussLorentzCurve, mul_comm scale (1 / Real.sqrt (2 * Real.log 2))]
  · intro area loc scale lFraction
    simp [withinBounds, singleGlBounds, FBound.lowerOk, FBound.upperOk]

/-- C6: for every `Fit` produced with the default Gauss-Lorentz parameter
units (the default path of `fit_bands`), the first fitted parameter is the
peak area: `fit.parameters[0]` and `fit.area` agree in value, unit and
error. -/
theorem fitBand_first_parameter_is_area (popt perror : List ℚ)
    (fitModelDescription : String)
    (h1 : 0 < popt.length) (h2 : 0 < perror.length) :
    (fitBand popt perror fitModelDescription singleGlUnits).parameters.headD
        ⟨0, "", 0⟩ =
      (fitBand popt perror fitModelDescription singleGlUnits).area := by
  cases popt with
  | nil => simp at h1
  | cons p ps =>
    cases perror with
    | nil => simp at h2
    | cons e es => simp [fitBand, singleGlUnits]

/-- Witness for C6 at the default-model parameter count. -/
theorem fitBand_first_parameter_is_area_witness :
    (fitBand [4, 1500, 3, 1/2] [1, 2, 3, 4] "Gauss-Lorentz"
        singleGlUnits).parameters.headD ⟨0, "", 0⟩ =
      (fitBand [4, 1500, 3, 1/2] [1, 2, 3, 4] "Gauss-Lorentz"
        singleGlUnits).area :=
  fitBand_first_parameter_is_area [4, 1500, 3, 1/2] [1, 2, 3, 4]
    "Gauss-Lorentz" (by decide) (by decide)

/-- C3 counterexample: supplying `fit_models` but neither
`fit_parameter_bounds` nor `fit_parameter_guesses` (a partial override) does
not raise a `ValueError`; the call silently takes the default
Gauss-Lorentz branch. -/
theorem fitBandsBranch_partial_override_no_error :
    fitBandsBranch (some [()] : Option (List Unit))
        (none : Option (List Unit)) (none : Option (List Unit)) =
      FitBranch.defaultGL ∧
    fitBandsBranch (some [()] : Option (List Unit))
        (none : Option (List Unit)) (none : Option (List Unit)) ≠
      FitBranch.raiseValueError := by
  decide

/-- C3 amended: no argument combination reaches the `ValueError` branch
(it is dead code); the custom branch is selected exactly when all three of
`fit_models`, `fit_parameter_bounds` and `fit_parameter_guesses` are truthy,
and every other combination — including partial overrides — silently falls
back to the default single Gauss-Lorentz fit. -/
theorem fitBandsBranch_spec {μ β γ : Type} (m : Option (List μ))
    (b : Option (List β)) (g : Option (List γ)) :
    fitBandsBranch m b g ≠ FitBranch.raiseValueError ∧
    (fitBandsBranch m b g = FitBranch.custom ↔
      (listTruthy m = true ∧ listTruthy b = true ∧ listTruthy g = true)) ∧
    (¬ (listTruthy m = true ∧ listTruthy b = true ∧ listTruthy g = true) →
      fitBandsBranch m b g = FitBranch.defaultGL) := by
  cases hm : listTruthy m <;> cases hb : listTruthy b <;>
    cases hg : listTruthy g <;> simp [fitBandsBranch, hm, hb, hg]

/-- Witness for the amended C3 at a concrete partial override. -/
theorem fitBandsBranch_spec_witness :
    fitBandsBranch (none : Option (List Unit)) (some [()] : Option (List Unit))
        (some [()] : Option (List Unit)) = FitBranch.defaultGL :=
  (fitBandsBranch_spec (none : Option (List Unit))
      (some [()] : Option (List Unit)) (some [()] : Option (List Unit))).2.2
    (by decide)

theorem idxOfMin_lt_length (l : List ℚ) (h : l ≠ []) : idxOfMin l < l.length := by
  induction l with
  | nil => exact absurd rfl h
  | cons a rest ih =>
    cases rest with
    | nil => simp [idxOfMin]
    | cons b rest' =>
      have hb := ih (by simp)
      rw [idxOfMin]
      split
      · simpa using Nat.succ_lt_succ hb
      · simp

theorem idxOfMin_min (l : List ℚ) :
    ∀ j < l.length, l.getD (idxOfMin l) 0 ≤ l.getD j 0 := by
  induction l with
  | nil => intro j hj; simp at hj
  | cons a rest ih =>
    cases rest with
    | nil =>
      intro j hj
      have hj0 : j = 0 := by simpa using Nat.lt_one_iff.mp (by simpa using hj)
      subst hj0
      simp [idxOfMin]
    | cons b rest' =>
      intro j hj
      rw [idxOfMin]
      split
      · rename_i hlt
        cases j with
        | zero => simpa using le_of_lt hlt
        | succ k =>
          simpa using ih k (by simpa using hj)
      · rename_i hge
        push_neg at hge
        cases j with
        | zero => simp
        | succ k =>
          have hk := ih k (by simpa using hj)
          simp only [List.getD_cons_succ, List.getD_cons_zero]
          exact le_trans hge hk

theorem idxOfMin_first_min (l : List ℚ) :
    ∀ j < idxOfMin l, l.getD (idxOfMin l) 0 < l.getD j 0 := by
  induction l with
  | nil => intro j hj; simp [idxOfMin] at hj
  | cons a rest ih =>
    cases rest with
    | nil => intro j hj; simp [idxOfMin] at hj
    | cons b rest' =>
      intro j hj
      rw [idxOfMin] at hj ⊢
      split
      · rename_i hlt
        rw [if_pos hlt] at hj
        cases j with
        | zero => simpa using hlt
        | succ k =>
          simp only [List.getD_cons_succ]
          exact ih k (by omega)
      · rename_i hge
        rw [if_neg hge] at hj
        omega

/-- C7 counterexample: no unit conversion happens before the comparison.
For a band located at 150000 m⁻¹ (= 1500 cm⁻¹) and the default table in
cm⁻¹, the converted-nearest entry is "Mixed" (1491 cm⁻¹), yet the code
compares raw values and returns "Bronsted". -/
theorem autoAssignBand_no_unit_conversion :
    autoAssignBand ⟨150000, 1⟩ defaultExpectedPeaks = "Bronsted" ∧
    specAssignBandConverted ⟨150000, 1⟩ defaultExpectedPeaks = "Mixed" ∧
    ratAbs ((1491 : ℚ) * 100 - 150000 * 1) <
      ratAbs ((1545 : ℚ) * 100 - 150000 * 1) := by
  refine ⟨?_, ?_, ?_⟩ <;>
    norm_num [autoAssignBand, specAssignBandConverted, differenceToExpected,
      defaultExpectedPeaks, ratAbs, idxOfMin]

/-- C7 amended: classification assigns the band to the table entry whose
expected location has the smallest absolute difference to the band's
location **comparing raw numeric values with no unit conversion** (units
are assumed identical); on exact ties the first such candidate in table
iteration order is chosen. -/
theorem autoAssignBand_nearest_raw (peakLocation : PeakLoc)
    (expectedPeaks : List ExpectedPeak) (h : expectedPeaks ≠ []) :
    autoAssignBand peakLocation expectedPeaks =
      (expectedPeaks.getD
        (idxOfMin (differenceToExpected peakLocation expectedPeaks))
        default).name ∧
    idxOfMin (differenceToExpected peakLocation expectedPeaks) <
      expectedPeaks.length ∧
    (∀ j < expectedPeaks.length,
      (differenceToExpected peakLocation expectedPeaks).getD
          (idxOfMin (differenceToExpected peakLocation expectedPeaks)) 0 ≤
        (differenceToExpected peakLocation expectedPeaks).getD j 0) ∧
    (∀ j < idxOfMin (differenceToExpected peakLocation expectedPeaks),
      (differenceToExpected peakLocation expectedPeaks).getD
          (idxOfMin (differenceToExpected peakLocation expectedPeaks)) 0 <
        (differenceToExpected peakLocation expectedPeaks).getD j 0) := by
  have hlen : (differenceToExpected peakLocation expectedPeaks).length =
      expectedPeaks.length := by
    simp [differenceToExpected]
  have hne : differenceToExpected peakLocation expectedPeaks ≠ [] := by
    intro hnil
    rw [differenceToExpected, List.map_eq_nil_iff] at hnil
    exact h hnil
  have hidx := idxOfMin_lt_length _ hne
  rw [hlen] at hidx
  refine ⟨?_, hidx, ?_, ?_⟩
  · rw [autoAssignBand]
    rw [List.getD_eq_getElem?_getD, List.getD_eq_getElem?_getD,
      List.getElem?_map, List.getElem?_eq_getElem hidx]
    simp
  · intro j hj
    exact idxOfMin_min _ j (by rw [hlen]; exact hj)
  · intro j hj
    exact idxOfMin_first_min _ j hj

/-- Witness for the amended C7 at the spec's own example: a band at
1500 cm⁻¹ against the default table resolves to the entry at the argmin,
which is "Mixed". -/
theorem autoAssignBand_nearest_raw_witness :
    autoAssignBand ⟨1500, 100⟩ defaultExpectedPeaks =
      (defaultExpectedPeaks.getD
        (idxOfMin (differenceToExpected ⟨1500, 100⟩ defaultExpectedPeaks))
        default).name :=
  (autoAssignBand_nearest_raw ⟨1500, 100⟩ defaultExpectedPeaks
    (by decide)).1

example : autoAssignBand ⟨1500, 100⟩ defaultExpectedPeaks = "Mixed" := by
  norm_num [autoAssignBand, differenceToExpected, defaultExpectedPeaks, ratAbs,
    idxOfMin]

/-- C2: if a baseline is already stored, `baseline_correction` first adds it
back to the working intensity, behaving exactly as if the unit had never
been baseline-corrected (first conjunct); after any correction the invariant
`corrected_y + baseline = working y before recomputation` holds (second
conjunct); hence running the step twice with identical parameters yields the
same corrected spectrum and baseline as running it once, exactly in ℚ
(third conjunct).  The hypothesis states that FastChrom returns a baseline
of the same length as its input, as the real algorithm does. -/
theorem baselineStep_restore_idempotent (fastchrom : FastChrom)
    (threshold : Option ℚ) (halfWindow : Option ℕ) (obj : AnalysisObj)
    (hlen : ∀ y x, (fastchrom y x threshold halfWindow).length = y.length) :
    (∀ b, obj.baseline = some b →
      baselineStep fastchrom threshold halfWindow obj =
        baselineStep fastchrom threshold halfWindow
          { obj with
              intensity := List.zipWith (· + ·) obj.intensity b,
              baseline := none }) ∧
    (List.zipWith (· + ·)
        (baselineStep fastchrom threshold halfWindow obj).intensity
        ((baselineStep fastchrom threshold halfWindow obj).baseline.getD []) =
      match obj.baseline with
      | some b => List.zipWith (· + ·) obj.intensity b
      | none => obj.intensity) ∧
    baselineStep fastchrom threshold halfWindow
        (baselineStep fastchrom threshold halfWindow obj) =
      baselineStep fastchrom threshold halfWindow obj := by
  have zip_sub_add : ∀ (y b : List ℚ), b.length = y.length →
      List.zipWith (· + ·) (List.zipWith (· - ·) y b) b = y := by
    intro y b hb
    induction y generalizing b with
    | nil => cases b <;> simp_all
    | cons a ys ih =>
      cases b with
      | nil => simp at hb
      | cons c bs =>
        simp only [List.zipWith_cons_cons, sub_add_cancel, List.cons.injEq,
          true_and]
        exact ih bs (by simpa using hb)
  refine ⟨?_, ?_, ?_⟩
  · intro b hb
    simp [baselineStep, hb]
  · cases hob : obj.baseline with
    | none =>
      simp only [baselineStep, hob]
      exact zip_sub_add _ _ (hlen _ _)
    | some b =>
      simp only [baselineStep, hob]
      exact zip_sub_add _ _ (hlen _ _)
  · cases hob : obj.baseline with
    | none =>
      simp only [baselineStep, hob]
      rw [zip_sub_add _ _ (hlen _ _)]
    | some b =>
      simp only [baselineStep, hob]
      rw [zip_sub_add _ _ (hlen _ _)]

/-- Witness for C2 with a concrete FastChrom instance (constant zero
baseline of matching length) and a concrete analysis object. -/
theorem baselineStep_restore_idempotent_witness :
    baselineStep (fun y _ _ _ => y.map fun _ => 0) none none
        (baselineStep (fun y _ _ _ => y.map fun _ => 0) none none
          ⟨[1, 2], [5, 7], some [1, 1], []⟩) =
      baselineStep (fun y _ _ _ => y.map fun _ => 0) none none
        ⟨[1, 2], [5, 7], some [1, 1], []⟩ :=
  (baselineStep_restore_idempotent (fun y _ _ _ => y.map fun _ => 0) none none
    ⟨[1, 2], [5, 7], some [1, 1], []⟩
    (fun y _ => by simp)).2.2

/-- C10: with `spectrum_no = 0` the truthiness test `if not spectrum_no:`
sends `baseline_correction` down the all-spectra branch — every analysis
object is corrected, exactly as with `spectrum_no = None` — while any
positive index corrects only the object at that index, leaving all others
unchanged.  In contrast, `find_bands` (whose test is
`isinstance(spectrum_no, int)`) with `spectrum_no = 0` takes the
single-spectrum branch: every object other than index 0 is left
unchanged. -/
theorem baselineCorrection_zero_selects_all (fastchrom : FastChrom)
    (threshold : Option ℚ) (halfWindow : Option ℕ)
    (objs : List AnalysisObj) (k : ℕ) (hk : 0 < k) :
    baselineCorrection fastchrom (some 0) threshold halfWindow objs =
      objs.map (baselineStep fastchrom threshold halfWindow) ∧
    baselineCorrection fastchrom none threshold halfWindow objs =
      objs.map (baselineStep fastchrom threshold halfWindow) ∧
    (∀ j, j < objs.length → j ≠ k →
      (baselineCorrection fastchrom (some k) threshold halfWindow objs).getD j
          default = objs.getD j default) ∧
    (k < objs.length →
      (baselineCorrection fastchrom (some k) threshold halfWindow objs).getD k
          default =
        baselineStep fastchrom threshold halfWindow (objs.getD k default)) ∧
    (∀ (findBandsAlg : FindBandsAlg) (expectedPeaks : List ExpectedPeak)
        (prominence relHeight : ℚ) (j : ℕ), j < objs.length → j ≠ 0 →
      (findBands findBandsAlg expectedPeaks (some 0) prominence relHeight
          objs).1.getD j default = objs.getD j default) := by
  have htruthy : pyTruthyNat (some k) = true := by
    simp [pyTruthyNat]
    omega
  refine ⟨by simp [baselineCorrection, pyTruthyNat], by
    simp [baselineCorrection, pyTruthyNat], ?_, ?_, ?_⟩
  · intro j hj hjk
    simp only [baselineCorrection, htruthy, if_pos, Option.getD_some]
    rw [List.getD_eq_getElem?_getD, List.getElem?_set_ne (by omega),
      ← List.getD_eq_getElem?_getD]
  · intro hk2
    simp only [baselineCorrection, htruthy, if_pos, Option.getD_some]
    rw [List.getD_eq_getElem?_getD, List.getElem?_set_self
      (by simpa using hk2)]
    simp [List.getD_eq_getElem?_getD]
  · intro alg table prominence relHeight j hj hj0
    rw [findBands]
    cases alg ((objs.getD 0 default).wavenumber.zip
        (objs.getD 0 default).intensity) prominence relHeight with
    | nil => rfl
    | cons r rs =>
      simp only
      rw [List.getD_eq_getElem?_getD, List.getElem?_set_ne
        (by omega), ← List.getD_eq_getElem?_getD]

/-- Witness for C10 at a concrete state: index 1 of two objects. -/
theorem baselineCorrection_zero_selects_all_witness :
    (baselineCorrection (fun y _ _ _ => y.map fun _ => 0) (some 1) none none
        [⟨[1], [2], none, []⟩, ⟨[3], [4], none, []⟩]).getD 0 default =
      ([⟨[1], [2], none, []⟩, ⟨[3], [4], none, []⟩] :
        List AnalysisObj).getD 0 default :=
  (baselineCorrection_zero_selects_all (fun y _ _ _ => y.map fun _ => 0)
    none none [⟨[1], [2], none, []⟩, ⟨[3], [4], none, []⟩] 1
    (by norm_num)).2.2.1 0 (by norm_num) (by norm_num)

/-- C4: at a concrete failing input — a single-spectrum re-run detecting two
bands on an object that already holds two bands — only the first detected
band is written (position 0); the previously stored band at position 1
survives even though it differs from the second detected band, because the
`return` statement sits inside the per-band loop.  In the all-spectra
branch both detected bands are appended. -/
theorem findBands_single_early_return_bug :
    ((findBands (fun _ _ _ => [⟨1455, 0, 1450, 1460⟩, ⟨1545, 0, 1540, 1550⟩])
        defaultExpectedPeaks (some 0) (1/100) (96/100)
        [⟨[1450, 1455, 1460], [0, 1, 0], none,
          [⟨"old1", 10, 11, 12⟩, ⟨"old2", 20, 21, 22⟩]⟩]).1.getD 0
        default).bands =
      [bandFromRow defaultExpectedPeaks ⟨1455, 0, 1450, 1460⟩,
        ⟨"old2", 20, 21, 22⟩] ∧
    bandFromRow defaultExpectedPeaks ⟨1545, 0, 1540, 1550⟩ ≠
      ⟨"old2", 20, 21, 22⟩ ∧
    ((findBands (fun _ _ _ => [⟨1455, 0, 1450, 1460⟩, ⟨1545, 0, 1540, 1550⟩])
        defaultExpectedPeaks none (1/100) (96/100)
        [⟨[1450, 1455, 1460], [0, 1, 0], none,
          [⟨"old1", 10, 11, 12⟩, ⟨"old2", 20, 21, 22⟩]⟩]).1.getD 0
        default).bands =
      [⟨"old1", 10, 11, 12⟩, ⟨"old2", 20, 21, 22⟩,
        bandFromRow defaultExpectedPeaks ⟨1455, 0, 1450, 1460⟩,
        bandFromRow defaultExpectedPeaks ⟨1545, 0, 1540, 1550⟩] := by
  refine ⟨?_, ?_, ?_⟩
  · norm_num [findBands]
  · norm_num [bandFromRow, autoAssignBand, differenceToExpected,
      defaultExpectedPeaks, ratAbs, idxOfMin]
  · norm_num [findBands]

/-- C1: for finite inputs with a nonzero denominator and dimensionally
compatible units, the per-band quantification produces exactly
`(sample_area * peak_area) / (sample_mass * extinction_coefficient)`
converted to µmol/g (each operand expressed in SI via its unit factor, the
result rescaled by the µmol/g factor 1/1000), and the reported error is the
same formula with the peak-area error substituted for the peak-area
value. -/
theorem quantify_formula (m a p : ValueD) (ec : QuantityF)
    (mv av pv pe ev : ℚ)
    (hm : m.value = .fin mv) (ha : a.value = .fin av) (hp : p.value = .fin pv)
    (hpe : p.error = .fin pe) (hec : ec.val = .fin ev)
    (hden : mv * ev ≠ 0)
    (hlen : a.unit.len + p.unit.len - (m.unit.len + ec.unit.len) = 0)
    (hmass : a.unit.mass + p.unit.mass - (m.unit.mass + ec.unit.mass) = -1)
    (hmol : a.unit.mol + p.unit.mol - (m.unit.mol + ec.unit.mol) = 1) :
    quantifyBandResult m a p ec =
      some ⟨.fin (1000 * ((av * a.unit.factor) * (pv * p.unit.factor)) /
              ((mv * m.unit.factor) * (ev * ec.unit.factor))),
            umolPerG,
            .fin (1000 * ((av * a.unit.factor) * (pe * p.unit.factor)) /
              ((mv * m.unit.factor) * (ev * ec.unit.factor)))⟩ := by
  simp only [quantifyBandResult, quantifyFromArea, getQuantityObject,
    QuantityF.mul, QuantityF.div, QuantityF.to, UnitD.mul, UnitD.div,
    umolPerG, hm, ha, hp, hpe, hec, if_true, if_false, Bool.false_eq_true,
    ite_false, ite_true, PyFloat.mul, PyFloat.div, hden, if_neg]
  simp only [hlen, hmass, hmol, and_self, if_true, if_pos]
  simp only [Option.bind_eq_bind, Option.some_bind]
  congr 2 <;>
  · rw [div_mul_div_comm]
    field_simp
    ring

/-- Witness for C1 at the spec's reference numbers: sample area 2 cm²,
mass 10 mg, peak area 5 cm⁻¹ (error 0.1 cm⁻¹), extinction coefficient
2.22e4 m/mol. -/
theorem quantify_formula_witness :
    quantifyBandResult ⟨.fin 10, ⟨1/1000000, 0, 1, 0⟩, .fin 0⟩
        ⟨.fin 2, ⟨1/10000, 2, 0, 0⟩, .fin 0⟩
        ⟨.fin 5, ⟨100, -1, 0, 0⟩, .fin (1/10)⟩
        ⟨.fin 22200, ⟨1, 1, 0, -1⟩⟩ =
      some ⟨.fin (1000 * ((2 * (1/10000)) * (5 * 100)) /
              ((10 * (1/1000000)) * (22200 * 1))),
            umolPerG,
            .fin (1000 * ((2 * (1/10000)) * ((1/10) * 100)) /
              ((10 * (1/1000000)) * (22200 * 1)))⟩ :=
  quantify_formula ⟨.fin 10, ⟨1/1000000, 0, 1, 0⟩, .fin 0⟩
    ⟨.fin 2, ⟨1/10000, 2, 0, 0⟩, .fin 0⟩
    ⟨.fin 5, ⟨100, -1, 0, 0⟩, .fin (1/10)⟩
    ⟨.fin 22200, ⟨1, 1, 0, -1⟩⟩
    10 2 5 (1/10) 22200 rfl rfl rfl rfl rfl (by norm_num) (by norm_num)
    (by norm_num) (by norm_num)

/-- C5 counterexample: quantification with zero sample mass raises nothing —
no `QuantificationError` (or any error class) exists in the codebase and
`_quantify_from_area` contains no zero test — and silently returns an
infinite quantity and error (numpy division of a positive value by zero). -/
theorem quantify_zero_mass_counterexample :
    quantifyBandResult ⟨.fin 0, ⟨1/1000000, 0, 1, 0⟩, .fin 0⟩
        ⟨.fin 2, ⟨1/10000, 2, 0, 0⟩, .fin 0⟩
        ⟨.fin 5, ⟨100, -1, 0, 0⟩, .fin (1/10)⟩
        ⟨.fin 22200, ⟨1, 1, 0, -1⟩⟩ =
      some ⟨.inf, umolPerG, .inf⟩ := by
  norm_num [quantifyBandResult, quantifyFromArea, getQuantityObject,
    QuantityF.mul, QuantityF.div, QuantityF.to, UnitD.mul, UnitD.div,
    umolPerG, PyFloat.mul, PyFloat.div]

/-- C5 amended: for every quantification call with zero sample mass (finite
positive numerator, positive unit factors, compatible dimensions), the
operation completes without raising and returns a result whose quantity
value is `+inf`. -/
theorem quantify_zero_mass_returns_inf (m a p : ValueD) (ec : QuantityF)
    (av pv ev : ℚ)
    (hm : m.value = .fin 0) (ha : a.value = .fin av) (hp : p.value = .fin pv)
    (hec : ec.val = .fin ev)
    (hpos : 0 < av * pv)
    (hfa : 0 < a.unit.factor) (hfp : 0 < p.unit.factor)
    (hfm : 0 < m.unit.factor) (hfe : 0 < ec.unit.factor)
    (hlen : a.unit.len + p.unit.len - (m.unit.len + ec.unit.len) = 0)
    (hmass : a.unit.mass + p.unit.mass - (m.unit.mass + ec.unit.mass) = -1)
    (hmol : a.unit.mol + p.unit.mol - (m.unit.mol + ec.unit.mol) = 1) :
    ∃ result, quantifyBandResult m a p ec = some result ∧
      result.value = PyFloat.inf := by
  have hc : 0 < a.unit.factor * p.unit.factor /
      (m.unit.factor * ec.unit.factor) / (1/1000) := by positivity
  simp only [quantifyBandResult, quantifyFromArea, getQuantityObject,
    QuantityF.mul, QuantityF.div, QuantityF.to, UnitD.mul, UnitD.div,
    umolPerG, hm, ha, hp, hec, Bool.false_eq_true, ite_false, ite_true,
    PyFloat.mul, PyFloat.div, zero_mul, if_pos rfl, hpos,
    hlen, hmass, hmol, and_self, Option.bind_eq_bind, Option.some_bind]
  refine ⟨_, rfl, ?_⟩
  simp only [PyFloat.mul, hc, if_pos]

/-- Witness for the amended C5 at a concrete zero-mass input. -/
theorem quantify_zero_mass_returns_inf_witness :
    ∃ result, quantifyBandResult ⟨.fin 0, ⟨1/1000, 0, 1, 0⟩, .fin 0⟩
        ⟨.fin 3, ⟨1/10000, 2, 0, 0⟩, .fin 0⟩
        ⟨.fin 7, ⟨100, -1, 0, 0⟩, .fin 1⟩
        ⟨.fin 167, ⟨1, 1, 0, -1⟩⟩ = some result ∧
      result.value = PyFloat.inf :=
  quantify_zero_mass_returns_inf ⟨.fin 0, ⟨1/1000, 0, 1, 0⟩, .fin 0⟩
    ⟨.fin 3, ⟨1/10000, 2, 0, 0⟩, .fin 0⟩
    ⟨.fin 7, ⟨100, -1, 0, 0⟩, .fin 1⟩
    ⟨.fin 167, ⟨1, 1, 0, -1⟩⟩ 3 7 167 rfl rfl rfl rfl (by norm_num)
    (by norm_num) (by norm_num) (by norm_num) (by norm_num) (by norm_num)
    (by norm_num) (by norm_num)

end IRAnalysis
